import Mathlib

/-!
Shallow embedding of the sc2-search-api Cloudflare Worker (`src/index.ts`):
a cache-aside HTTP proxy in front of the Tinybird analytics API.

JavaScript values flowing through the worker are modelled by an inductive
JSON type; `URLSearchParams` is modelled as an ordered list of key/value
pairs with the platform's first-match/replace-in-place semantics; the
external KV cache and the backend HTTP fetch are modelled as oracles the
pipeline consults, and an uncaught JavaScript exception is the `thrown`
outcome.  Percent-encoding of query strings is the identity on the
character sets used here and is not modelled.
-/

namespace SC2

/-- JSON values (`JSON.parse` results / `JSON.stringify` inputs).
Object member order is significant, as in JavaScript. -/
inductive Json where
  | null : Json
  | bool (b : Bool) : Json
  | num (n : Int) : Json
  | str (s : String) : Json
  | arr (elems : List Json) : Json
  | obj (members : List (String × Json)) : Json

/-- Left brace character, written via its code point. -/
def lbraceChar : Char := Char.ofNat 123

/-- Right brace character, written via its code point. -/
def rbraceChar : Char := Char.ofNat 125

/-- Escape one character for a JSON string literal. -/
def escapeChar (c : Char) : String :=
  if c == '"' then "\\\""
  else if c == '\\' then "\\\\"
  else if c == '\n' then "\\n"
  else if c == '\t' then "\\t"
  else String.singleton c

/-- Escape the body of a JSON string literal. -/
def escapeString (s : String) : String :=
  s.data.foldl (fun acc c => acc ++ escapeChar c) ""

mutual

/-- `JSON.stringify` on the modelled value space. -/
def jsonStringify : Json → String
  | .null => "null"
  | .bool true => "true"
  | .bool false => "false"
  | .num n => toString n
  | .str s => "\"" ++ escapeString s ++ "\""
  | .arr elems => "[" ++ stringifyElems elems ++ "]"
  | .obj members => String.singleton lbraceChar ++ stringifyMembers members ++ String.singleton rbraceChar

/-- Comma-separated serialization of array elements. -/
def stringifyElems : List Json → String
  | [] => ""
  | [x] => jsonStringify x
  | x :: y :: rest => jsonStringify x ++ "," ++ stringifyElems (y :: rest)

/-- Comma-separated serialization of object members. -/
def stringifyMembers : List (String × Json) → String
  | [] => ""
  | [(k, v)] => "\"" ++ escapeString k ++ "\":" ++ jsonStringify v
  | (k, v) :: m :: rest => "\"" ++ escapeString k ++ "\":" ++ jsonStringify v ++ "," ++ stringifyMembers (m :: rest)

end

/-- Skip JSON insignificant whitespace. -/
def skipWs : List Char → List Char
  | [] => []
  | c :: cs => if c == ' ' || c == '\n' || c == '\t' || c == '\r' then skipWs cs else c :: cs

/-- Consume the body of a JSON string literal after the opening quote,
returning the decoded characters and the input after the closing quote. -/
def takeStringChars : List Char → Option (List Char × List Char)
  | [] => none
  | c :: cs =>
    if c == '"' then some ([], cs)
    else if c == '\\' then
      match cs with
      | [] => none
      | e :: cs' =>
        let dec : Option Char :=
          if e == '"' then some '"'
          else if e == '\\' then some '\\'
          else if e == '/' then some '/'
          else if e == 'n' then some '\n'
          else if e == 't' then some '\t'
          else none
        match dec with
        | some d =>
          match takeStringChars cs' with
          | some (s, rest) => some (d :: s, rest)
          | none => none
        | none => none
    else
      match takeStringChars cs with
      | some (s, rest) => some (c :: s, rest)
      | none => none

/-- Consume a maximal run of decimal digits. -/
def takeDigits : List Char → List Char × List Char
  | [] => ([], [])
  | c :: cs =>
    if c.isDigit then
      let p := takeDigits cs
      (c :: p.1, p.2)
    else ([], c :: cs)

/-- Numeric value of a digit run. -/
def digitsVal (ds : List Char) : Nat :=
  ds.foldl (fun n c => n * 10 + (c.toNat - 48)) 0

/-- Match an exact character sequence. -/
def expectChars : List Char → List Char → Option (List Char)
  | [], rest => some rest
  | p :: ps, c :: rest => if c == p then expectChars ps rest else none
  | _ :: _, [] => none

mutual

/-- Fueled JSON value reader (integer numerals; no unicode escapes). -/
def jsonVal : Nat → List Char → Option (Json × List Char)
  | 0, _ => none
  | fuel + 1, cs =>
    match skipWs cs with
    | [] => none
    | c :: rest =>
      if c == 'n' then (expectChars ['u', 'l', 'l'] rest).map (fun r => (Json.null, r))
      else if c == 't' then (expectChars ['r', 'u', 'e'] rest).map (fun r => (Json.bool true, r))
      else if c == 'f' then (expectChars ['a', 'l', 's', 'e'] rest).map (fun r => (Json.bool false, r))
      else if c == '"' then (takeStringChars rest).map (fun p => (Json.str (String.mk p.1), p.2))
      else if c == '[' then
        match skipWs rest with
        | [] => none
        | d :: rest' =>
          if d == ']' then some (Json.arr [], rest')
          else
            match jsonElems fuel (d :: rest') with
            | some (vs, r) => some (Json.arr vs, r)
            | none => none
      else if c == lbraceChar then
        match skipWs rest with
        | [] => none
        | d :: rest' =>
          if d == rbraceChar then some (Json.obj [], rest')
          else
            match jsonMembers fuel (d :: rest') with
            | some (ms, r) => some (Json.obj ms, r)
            | none => none
      else if c == '-' then
        match takeDigits rest with
        | ([], _) => none
        | (ds, r) => some (Json.num (-(digitsVal ds : Int)), r)
      else if c.isDigit then
        match takeDigits (c :: rest) with
        | (ds, r) => some (Json.num (digitsVal ds : Int), r)
      else none

/-- Fueled reader for a non-empty comma-separated element list up to `]`. -/
def jsonElems : Nat → List Char → Option (List Json × List Char)
  | 0, _ => none
  | fuel + 1, cs =>
    match jsonVal fuel cs with
    | none => none
    | some (v, rest) =>
      match skipWs rest with
      | [] => none
      | c :: rest' =>
        if c == ',' then
          match jsonElems fuel rest' with
          | some (vs, r) => some (v :: vs, r)
          | none => none
        else if c == ']' then some ([v], rest')
        else none

/-- Fueled reader for a non-empty object member list up to the closing brace. -/
def jsonMembers : Nat → List Char → Option (List (String × Json) × List Char)
  | 0, _ => none
  | fuel + 1, cs =>
    match skipWs cs with
    | [] => none
    | c :: rest =>
      if c == '"' then
        match takeStringChars rest with
        | none => none
        | some (kcs, rest1) =>
          match skipWs rest1 with
          | [] => none
          | d :: rest2 =>
            if d == ':' then
              match jsonVal fuel rest2 with
              | none => none
              | some (v, rest3) =>
                match skipWs rest3 with
                | [] => none
                | e :: rest4 =>
                  if e == ',' then
                    match jsonMembers fuel rest4 with
                    | some (ms, r) => some ((String.mk kcs, v) :: ms, r)
                    | none => none
                  else if e == rbraceChar then some ([(String.mk kcs, v)], rest4)
                  else none
            else none
      else none

end

/-- `JSON.parse`: the whole input must be one JSON value (throwing is `none`). -/
def jsonParse (s : String) : Option Json :=
  match jsonVal (2 * s.length + 2) s.data with
  | some (j, rest) => if (skipWs rest).isEmpty then some j else none
  | none => none

/-- A `URLSearchParams` value: key/value pairs in insertion order. -/
abbrev Params := List (String × String)

/-- `URLSearchParams.get`: the value of the first pair with the given key. -/
def getParam (ps : Params) (k : String) : Option String :=
  (ps.find? (fun kv => kv.1 == k)).map (fun kv => kv.2)

/-- `URLSearchParams.has`. -/
def hasParam (ps : Params) (k : String) : Bool :=
  ps.any (fun kv => kv.1 == k)

/-- `URLSearchParams.delete`: removes every pair with the given key. -/
def deleteParam (ps : Params) (k : String) : Params :=
  ps.filter (fun kv => kv.1 != k)

/-- `URLSearchParams.set`: replaces the first pair with the given key in
place and drops the other pairs with that key; appends when absent. -/
def setParam : Params → String → String → Params
  | [], k, v => [(k, v)]
  | (k', v') :: rest, k, v =>
    if k' == k then (k, v) :: deleteParam rest k
    else (k', v') :: setParam rest k v

/-- `URLSearchParams.toString`: `k=v` pairs joined by `&` in insertion
order (percent-encoding omitted — identity on the characters used). -/
def toQueryString (ps : Params) : String :=
  String.intercalate "&" (ps.map (fun kv => kv.1 ++ "=" ++ kv.2))

/-- The cache key / unauthorized backend URL: every handler computes
`url` by appending the serialized search parameters to the endpoint
(`index.ts` line 94 and its copies). The auth token is not part of it. -/
def buildKey (endpoint : String) (searchParams : Params) : String :=
  endpoint ++ "?" ++ toQueryString searchParams

/-- Parameter normalization of `handleRequest` (`index.ts` lines 35-41):
copy the request parameters, drop `refresh` and `q`, and when `q` is
present and non-empty (JS truthiness) set `input` to it. -/
def normalizeSearchParams (params : Params) : Params :=
  let sp := deleteParam (deleteParam params "refresh") "q"
  match getParam params "q" with
  | some v => if v == "" then sp else setParam sp "input" v
  | none => sp

/-- Outcome of one `KVNamespace.get`: a stored string, a miss (`null`),
or a store failure (the promise rejects). -/
inductive ReadResult where
  | hit (value : String) : ReadResult
  | miss : ReadResult
  | storeError : ReadResult
deriving DecidableEq

/-- External-cache behavior for one key: what the read returns, and
whether a write against the key succeeds. -/
structure CacheOracle where
  readResult : ReadResult
  writeOk : Bool
deriving DecidableEq

/-- A backend HTTP response: status code and raw body text. -/
structure ApiResponse where
  status : Nat
  body : String
deriving DecidableEq

/-- `Response.ok`: status in the inclusive range 200-299. -/
def statusOk (status : Nat) : Bool :=
  decide (200 ≤ status ∧ status < 300)

/-- What the worker hands back: an HTTP response, or an uncaught
exception (the returned promise rejects and no response is produced). -/
inductive Outcome where
  | response (body : String) (status : Nat) : Outcome
  | thrown : Outcome
deriving DecidableEq

/-- One handler run: its outcome, the backend URLs fetched, and the
cache writes attempted (key, serialized body). -/
structure RunResult where
  outcome : Outcome
  fetches : List String
  writes : List (String × String)
deriving DecidableEq

/-- Member lookup `record.field` on an object (absent / non-object is
`undefined`, i.e. `none`). -/
def getField : Json → String → Option Json
  | .obj members, k => ((members.find? (fun kv => kv.1 == k)).map (fun kv => kv.2))
  | _, _ => none

/-- Replace-or-append on object members, keeping the position of an
existing key (JS object update semantics). -/
def setAssoc : List (String × Json) → String → Json → List (String × Json)
  | [], k, v => [(k, v)]
  | (k', v') :: rest, k, v =>
    if k' == k then (k, v) :: rest
    else (k', v') :: setAssoc rest k v

/-- `(obj : Json)` with one member replaced or appended. -/
def objSet (j : Json) (k : String) (v : Json) : Json :=
  match j with
  | .obj members => .obj (setAssoc members k v)
  | _ => j

/-- JavaScript truthiness of a parsed JSON value. -/
def jsTruthy : Json → Bool
  | .null => false
  | .bool b => b
  | .num n => n != 0
  | .str s => s != ""
  | .arr _ => true
  | .obj _ => true

/-- `(await apiResponse.json()).data`: parse the backend body and take
its `data` row array; any failure on this path throws (`none`). -/
def envelopeData (body : String) : Option (List Json) :=
  match jsonParse body with
  | some env =>
    match getField env "data" with
    | some (.arr records) => some records
    | _ => none
  | none => none

/-- The per-record decode `{...record, builds: JSON.parse(record.builds),
players: JSON.parse(record.players)}` (`index.ts` lines 108-112); a
failing `JSON.parse` throws (`none`). -/
def decodeRecord (record : Json) : Option Json :=
  match getField record "builds", getField record "players" with
  | some (.str bs), some (.str ps) =>
    match jsonParse bs, jsonParse ps with
    | some b, some p => some (objSet (objSet record "builds" b) "players" p)
    | _, _ => none
  | _, _ => none

/-- `searchResponse.data.map(decode)`. -/
def decodeRecords (records : List Json) : Option (List Json) :=
  records.mapM decodeRecord

/-- `String.prototype.split` with a one-character separator:
`"".split(sep)` is `[""]`, and a trailing separator yields a trailing
empty group, as in JavaScript. -/
def splitOnChar (sep : Char) : List Char → List (List Char)
  | [] => [[]]
  | c :: rest =>
    let r := splitOnChar sep rest
    if c == sep then [] :: r
    else
      match r with
      | [] => [[c]]
      | g :: gs => (c :: g) :: gs

/-- `input.split('+')` (`index.ts` line 118). -/
def jsSplit (s : String) (sep : Char) : List String :=
  (splitOnChar sep s.data).map String.mk

/-- `String.prototype.toLowerCase` (ASCII range, which is all the
comparison below relies on). -/
def jsToLowerCase (s : String) : String :=
  String.mk (s.data.map Char.toLower)

/-- `compare` (`index.ts` lines 79-81): case-insensitive string equality. -/
def compare (a b : String) : Bool :=
  jsToLowerCase a == jsToLowerCase b

/-- `replay.players` as iterated by the reranking loop (a decoded record
carries an array of player objects). -/
def playersArr (replay : Json) : List Json :=
  match getField replay "players" with
  | some (.arr ps) => ps
  | _ => []

/-- `player.name` as read by the reranking loop. -/
def playerName (player : Json) : String :=
  match getField player "name" with
  | some (.str s) => s
  | _ => ""

/-- A replay is an exact match when some participating player's name
equals, case-insensitively, some query term. -/
def isExactMatch (terms : List String) (replay : Json) : Bool :=
  (playersArr replay).any (fun player => terms.any (fun term => compare (playerName player) term))

/-- Inner loop body of the reranking (`index.ts` lines 121-128): state is
(`exactMatches`, `exact` flag); a replay is pushed at its first matching
player only. -/
def innerStep (terms : List String) (replay : Json)
    (acc : List Json × Bool) (player : Json) : List Json × Bool :=
  let exactMatch := terms.any (fun term => compare (playerName player) term)
  if !acc.2 && exactMatch then (acc.1 ++ [replay], true) else acc

/-- Outer loop body (`index.ts` lines 119-133): state is
(`exactMatches`, `otherMatches`). -/
def outerStep (terms : List String)
    (acc : List Json × List Json) (replay : Json) : List Json × List Json :=
  let inner := (playersArr replay).foldl (innerStep terms replay) (acc.1, false)
  if inner.2 then (inner.1, acc.2) else (inner.1, acc.2 ++ [replay])

/-- The relevance reordering (`index.ts` lines 116-135):
`[...exactMatches, ...otherMatches]`. -/
def rerank (terms : List String) (searchResults : List Json) : List Json :=
  let acc := searchResults.foldl (outerStep terms) ([], [])
  acc.1 ++ acc.2

/-- `orderedSearchResults` (`index.ts` lines 114-136): reorder only when
`searchParams.get('input')` is truthy; terms are the `+`-split of it. -/
def orderedResultsOf (sp : Params) (searchResults : List Json) : List Json :=
  match getParam sp "input" with
  | some input =>
    if input == "" then searchResults
    else rerank (jsSplit input '+') searchResults
  | none => searchResults

/-- The truncated list that `searchGames` serializes:
`orderedSearchResults.slice(0, 20)` (`index.ts` line 138). -/
def gamesOutputList (sp : Params) (searchResults : List Json) : List Json :=
  (orderedResultsOf sp searchResults).take 20

/-- Fixed backend base URL. -/
def tinybirdBase : String := "https://api.us-east.tinybird.co/v0/pipes/"

/-- The cache-read short-circuit shared by the single-query handlers
(`index.ts` lines 97-103 and copies): consulted only without `refresh`;
a rejected `get` throws; a truthy stored string is returned with status
200; a miss (or falsy value) falls through. -/
def cacheShortCircuit (requestParams : Params) (cache : CacheOracle) : Option RunResult :=
  if hasParam requestParams "refresh" then none
  else
    match cache.readResult with
    | .storeError => some ⟨.thrown, [], []⟩
    | .hit value => if value == "" then none else some ⟨.response value 200, [], []⟩
    | .miss => none

/-- `searchGames` (`index.ts` lines 83-147). `cacheOf` gives the cache
behavior per key; `apiOf` gives the backend response per fetched URL. -/
def searchGames (requestParams searchParams : Params) (apiKey : String)
    (cacheOf : String → CacheOracle) (apiOf : String → ApiResponse) : RunResult :=
  let fuzzy := hasParam requestParams "fuzzy"
  let endpoint := tinybirdBase ++ (if fuzzy then "sc2_fuzzy_game_search" else "sc2_game_search") ++ ".json"
  let sp := if fuzzy then deleteParam searchParams "fuzzy" else searchParams
  let url := buildKey endpoint sp
  let authorizedUrl := url ++ "&token=" ++ apiKey
  match cacheShortCircuit requestParams (cacheOf url) with
  | some r => r
  | none =>
    let api := apiOf authorizedUrl
    match envelopeData api.body with
    | none => ⟨.thrown, [authorizedUrl], []⟩
    | some records =>
      match decodeRecords records with
      | none => ⟨.thrown, [authorizedUrl], []⟩
      | some searchResults =>
        let serialized := jsonStringify (Json.arr (gamesOutputList sp searchResults))
        if statusOk api.status then
          if (cacheOf url).writeOk then
            ⟨.response serialized api.status, [authorizedUrl], [(url, serialized)]⟩
          else ⟨.thrown, [authorizedUrl], [(url, serialized)]⟩
        else ⟨.response serialized api.status, [authorizedUrl], []⟩

/-- Common body of `searchPlayers`, `searchMaps`, `searchEvents`,
`searchPlayerBuilds` and the per-metric part of `searchTimelines`
(`index.ts` lines 149-316): these source functions are verbatim copies
of each other except for the pipe file name. -/
def searchPipe (pipeFile : String) (requestParams searchParams : Params) (apiKey : String)
    (cacheOf : String → CacheOracle) (apiOf : String → ApiResponse) : RunResult :=
  let endpoint := tinybirdBase ++ pipeFile
  let url := buildKey endpoint searchParams
  let authorizedUrl := url ++ "&token=" ++ apiKey
  match cacheShortCircuit requestParams (cacheOf url) with
  | some r => r
  | none =>
    let api := apiOf authorizedUrl
    match envelopeData api.body with
    | none => ⟨.thrown, [authorizedUrl], []⟩
    | some records =>
      let serialized := jsonStringify (Json.arr records)
      if statusOk api.status then
        if (cacheOf url).writeOk then
          ⟨.response serialized api.status, [authorizedUrl], [(url, serialized)]⟩
        else ⟨.thrown, [authorizedUrl], [(url, serialized)]⟩
      else ⟨.response serialized api.status, [authorizedUrl], []⟩

/-- `searchPlayers` (`index.ts` lines 149-175). -/
def searchPlayers (requestParams searchParams : Params) (apiKey : String)
    (cacheOf : String → CacheOracle) (apiOf : String → ApiResponse) : RunResult :=
  searchPipe "sc2_player_search.json" requestParams searchParams apiKey cacheOf apiOf

/-- `searchMaps` (`index.ts` lines 177-203). -/
def searchMaps (requestParams searchParams : Params) (apiKey : String)
    (cacheOf : String → CacheOracle) (apiOf : String → ApiResponse) : RunResult :=
  searchPipe "sc2_map_search.json" requestParams searchParams apiKey cacheOf apiOf

/-- `searchEvents` (`index.ts` lines 205-231). -/
def searchEvents (requestParams searchParams : Params) (apiKey : String)
    (cacheOf : String → CacheOracle) (apiOf : String → ApiResponse) : RunResult :=
  searchPipe "sc2_event_search.json" requestParams searchParams apiKey cacheOf apiOf

/-- `searchPlayerBuilds` (`index.ts` lines 233-259). -/
def searchPlayerBuilds (requestParams searchParams : Params) (apiKey : String)
    (cacheOf : String → CacheOracle) (apiOf : String → ApiResponse) : RunResult :=
  searchPipe "sc2_player_builds.json" requestParams searchParams apiKey cacheOf apiOf

/-- The pipe file chosen by the `searchType` switch of `searchTimelines`
(`index.ts` lines 272-291); `none` is the default 400 branch. -/
def timelinePipeFile (searchType : String) : Option String :=
  if searchType == "game-length" then some "sc2_timeline_game_length_search.json"
  else if searchType == "collection-rate" then some "sc2_timeline_collection_rate_search.json"
  else if searchType == "army-value" then some "sc2_timeline_army_value_search.json"
  else if searchType == "workers-active" then some "sc2_timeline_workers_active_search.json"
  else none

/-- `searchTimelines` (`index.ts` lines 263-316). -/
def searchTimelines (searchType : String) (requestParams searchParams : Params) (apiKey : String)
    (cacheOf : String → CacheOracle) (apiOf : String → ApiResponse) : RunResult :=
  match timelinePipeFile searchType with
  | none => ⟨.response ("search type " ++ searchType ++ " not found") 400, [], []⟩
  | some pipeFile => searchPipe pipeFile requestParams searchParams apiKey cacheOf apiOf

/-- The four fan-out pipes of `fetchRecent` (`index.ts` lines 321-326). -/
def recentPipes : List String :=
  ["sc2_recent_games", "sc2_recent_players", "sc2_recent_maps", "sc2_recent_events"]

/-- `pipe.split('_').slice(-1)[0]`, with `games` relabelled `replays`
(`index.ts` lines 332-335). -/
def dataTypeOf (pipe : String) : String :=
  let dt := ((jsSplit pipe '_').getLast?).getD ""
  if dt == "games" then "replays" else dt

/-- One fan-out sub-query of `fetchRecent`: label/value produced (`none`
when the sub-promise rejects), backend URLs fetched, cache writes. -/
structure SubResult where
  entry : Option (String × Json)
  fetches : List String
  writes : List (String × String)

/-- The cache-read short-circuit of a `fetchRecent` sub-query
(`index.ts` lines 337-346): the stored string is re-parsed
(`type: 'json'`, a rejected or failing parse throws) and returned under
its label when truthy. -/
def recentShortCircuit (requestParams : Params) (cache : CacheOracle) (dataType : String) : Option SubResult :=
  if hasParam requestParams "refresh" then none
  else
    match cache.readResult with
    | .storeError => some ⟨none, [], []⟩
    | .hit value =>
      match jsonParse value with
      | some cached => if jsTruthy cached then some ⟨some (dataType, cached), [], []⟩ else none
      | none => some ⟨none, [], []⟩
    | .miss => none

/-- One sub-query of `fetchRecent` (`index.ts` lines 328-369).  On a miss,
`resultData` decodes `builds`/`players` for the `replays` label, but the
serialization written to the cache is of the undecoded `results.data`
(`index.ts` line 360). -/
def recentSubquery (pipe : String) (requestParams : Params) (apiKey : String)
    (cacheOf : String → CacheOracle) (apiOf : String → ApiResponse) : SubResult :=
  let url := tinybirdBase ++ pipe ++ ".json"
  let authorizedUrl := url ++ "?token=" ++ apiKey
  let dataType := dataTypeOf pipe
  match recentShortCircuit requestParams (cacheOf url) dataType with
  | some r => r
  | none =>
    let api := apiOf authorizedUrl
    match envelopeData api.body with
    | none => ⟨none, [authorizedUrl], []⟩
    | some records =>
      let resultDataOpt := if dataType == "replays" then decodeRecords records else some records
      match resultDataOpt with
      | none => ⟨none, [authorizedUrl], []⟩
      | some resultData =>
        let serializedResults := jsonStringify (Json.arr records)
        if statusOk api.status then
          if (cacheOf url).writeOk then
            ⟨some (dataType, Json.arr resultData), [authorizedUrl], [(url, serializedResults)]⟩
          else ⟨none, [authorizedUrl], [(url, serializedResults)]⟩
        else ⟨some (dataType, Json.arr resultData), [authorizedUrl], []⟩

/-- The `reduce`-with-spread merge of the sub-results
(`index.ts` lines 371-374). -/
def mergeEntries (entries : List (String × Json)) : List (String × Json) :=
  entries.foldl (fun acc e => setAssoc acc e.1 e.2) []

/-- `fetchRecent` (`index.ts` lines 318-378): fan out the four fixed
pipes, merge the labelled results, and answer 200; a rejected sub-query
rejects the whole `Promise.all`. -/
def fetchRecent (requestParams : Params) (apiKey : String)
    (cacheOf : String → CacheOracle) (apiOf : String → ApiResponse) : RunResult :=
  let subs := recentPipes.map (fun pipe => recentSubquery pipe requestParams apiKey cacheOf apiOf)
  let fetches := (subs.map (fun s => s.fetches)).flatten
  let writes := (subs.map (fun s => s.writes)).flatten
  if subs.all (fun s => s.entry.isSome) then
    let recentResults := Json.obj (mergeEntries (subs.filterMap (fun s => s.entry)))
    ⟨.response (jsonStringify recentResults) 200, fetches, writes⟩
  else ⟨.thrown, fetches, writes⟩

/-- The routing switch of `handleRequest` (`index.ts` lines 31-77). -/
def handleRequest (pathname : String) (params : Params) (apiKey : String)
    (cacheOf : String → CacheOracle) (apiOf : String → ApiResponse) : RunResult :=
  let searchParams := normalizeSearchParams params
  if pathname == "/games" then searchGames params searchParams apiKey cacheOf apiOf
  else if pathname == "/players" then searchPlayers params searchParams apiKey cacheOf apiOf
  else if pathname == "/maps" then searchMaps params searchParams apiKey cacheOf apiOf
  else if pathname == "/events" then searchEvents params searchParams apiKey cacheOf apiOf
  else if pathname == "/builds" then searchPlayerBuilds params searchParams apiKey cacheOf apiOf
  else if pathname == "/timeline/game-length" then
    searchTimelines "game-length" params searchParams apiKey cacheOf apiOf
  else if pathname == "/timeline/army-value" then
    searchTimelines "army-value" params searchParams apiKey cacheOf apiOf
  else if pathname == "/timeline/collection-rate" then
    searchTimelines "collection-rate" params searchParams apiKey cacheOf apiOf
  else if pathname == "/timeline/workers-active" then
    searchTimelines "workers-active" params searchParams apiKey cacheOf apiOf
  else if pathname == "/recent" then fetchRecent params apiKey cacheOf apiOf
  else ⟨.response ("invalid path: " ++ pathname) 400, [], []⟩

/-! ## Lemmas about the relevance reordering -/

/-- The inner player loop appends the replay to the accumulator exactly
when the flag was clear and some player matches, and ends with the flag
set accordingly. -/
lemma innerFold_eq (terms : List String) (replay : Json) (players : List Json) :
    ∀ (l : List Json) (b : Bool),
    players.foldl (innerStep terms replay) (l, b) =
      (if !b && players.any (fun p => terms.any (fun t => compare (playerName p) t))
        then l ++ [replay] else l,
       b || players.any (fun p => terms.any (fun t => compare (playerName p) t))) := by
  induction players with
  | nil => intro l b; simp
  | cons p ps ih =>
    intro l b
    simp only [List.foldl_cons, List.any_cons]
    cases b with
    | true => rw [show innerStep terms replay (l, true) p = (l, true) by simp [innerStep]]; simp [ih]
    | false =>
      by_cases hm : (terms.any fun t => compare (playerName p) t) = true
      · rw [show innerStep terms replay (l, false) p = (l ++ [replay], true) by simp [innerStep, hm]]
        simp [ih, hm]
      · rw [show innerStep terms replay (l, false) p = (l, false) by simp [innerStep, hm]]
        simp only [Bool.not_eq_true] at hm
        simp [ih, hm]

/-- One outer step routes the replay to `exactMatches` or
`otherMatches` by the `isExactMatch` predicate. -/
lemma outerStep_eq (terms : List String) (acc : List Json × List Json) (replay : Json) :
    outerStep terms acc replay =
      if isExactMatch terms replay then (acc.1 ++ [replay], acc.2)
      else (acc.1, acc.2 ++ [replay]) := by
  unfold outerStep
  rw [innerFold_eq]
  unfold isExactMatch
  by_cases h : ((playersArr replay).any fun player => terms.any fun term => compare (playerName player) term) = true
  · simp [h]
  · simp only [Bool.not_eq_true] at h
    simp [h]

/-- The outer loop accumulates the two stable partitions. -/
lemma outerFold_eq (terms : List String) (rs : List Json) :
    ∀ e o, rs.foldl (outerStep terms) (e, o) =
      (e ++ rs.filter (isExactMatch terms),
       o ++ rs.filter (fun r => !(isExactMatch terms r))) := by
  induction rs with
  | nil => intro e o; simp
  | cons r rs ih =>
    intro e o
    rw [List.foldl_cons, outerStep_eq]
    by_cases h : isExactMatch terms r
    · simp only [h, if_true, ih, List.filter_cons, Bool.not_true]
      simp [List.append_assoc]
    · simp only [h, if_false, ih, List.filter_cons]
      simp only [Bool.not_eq_true] at h
      simp [h, List.append_assoc]

/-- The reordering is the stable partition by `isExactMatch`: the exact
matches in backend order, then the others in backend order. -/
lemma rerank_eq_filter (terms : List String) (rs : List Json) :
    rerank terms rs =
      rs.filter (isExactMatch terms) ++ rs.filter (fun r => !(isExactMatch terms r)) := by
  unfold rerank
  rw [outerFold_eq]
  simp

/-- The reordering permutes the backend list. -/
lemma rerank_perm (terms : List String) (rs : List Json) :
    (rerank terms rs).Perm rs := by
  rw [rerank_eq_filter]
  exact List.filter_append_perm _ rs

/-- Whatever branch `orderedSearchResults` takes, it permutes the
backend list. -/
lemma orderedResultsOf_perm (sp : Params) (rs : List Json) :
    (orderedResultsOf sp rs).Perm rs := by
  unfold orderedResultsOf
  cases getParam sp "input" with
  | none => exact List.Perm.refl rs
  | some input =>
    by_cases h : input == ""
    · simp [h]
    · simp only [h, if_false]
      exact rerank_perm _ rs

/-- The reordering preserves length. -/
lemma orderedResultsOf_length (sp : Params) (rs : List Json) :
    (orderedResultsOf sp rs).length = rs.length :=
  (orderedResultsOf_perm sp rs).length_eq

/-! ## Lemmas about parameter normalization -/

/-- `get` on concatenated parameter lists: first list wins. -/
lemma getParam_append (l1 l2 : Params) (k : String) :
    getParam (l1 ++ l2) k = (getParam l1 k).or (getParam l2 k) := by
  unfold getParam
  rw [List.find?_append]
  cases List.find? (fun kv => kv.1 == k) l1 <;> simp

/-- `get` after `delete` of the same key is `null`. -/
lemma getParam_delete_self (l : Params) (k : String) :
    getParam (deleteParam l k) k = none := by
  unfold getParam deleteParam
  rw [List.find?_eq_none.mpr]
  · rfl
  · intro x hx
    have := List.of_mem_filter hx
    simpa using this

/-- A key absent from a list is absent from any filtered copy. -/
lemma getParam_filter_eq_none (l : Params) (p : String × String → Bool) (k : String)
    (h : hasParam l k = false) : getParam (l.filter p) k = none := by
  unfold getParam
  rw [List.find?_eq_none.mpr]
  · rfl
  · intro x hx
    have hmem : x ∈ l := List.mem_of_mem_filter hx
    intro hk
    have : hasParam l k = true := by
      unfold hasParam
      exact List.any_eq_true.mpr ⟨x, hmem, hk⟩
    rw [this] at h
    cases h

/-- Deleting two keys commutes. -/
lemma deleteParam_comm (l : Params) (k1 k2 : String) :
    deleteParam (deleteParam l k1) k2 = deleteParam (deleteParam l k2) k1 := by
  unfold deleteParam
  rw [List.filter_filter, List.filter_filter]
  apply List.filter_congr
  intro x _
  rw [Bool.and_comm]

/-- Deleting a key is idempotent. -/
lemma deleteParam_idem (l : Params) (k : String) :
    deleteParam (deleteParam l k) k = deleteParam l k := by
  unfold deleteParam
  rw [List.filter_filter]
  apply List.filter_congr
  intro x _
  rw [Bool.and_self]

/-- With `q` bound to the empty string, normalization gives the same
search parameters as with `q` deleted from the request. -/
lemma normalize_q_empty (P : Params) (h : getParam P "q" = some "") :
    normalizeSearchParams P = normalizeSearchParams (deleteParam P "q") := by
  unfold normalizeSearchParams
  rw [h, getParam_delete_self]
  show deleteParam (deleteParam P "refresh") "q"
      = deleteParam (deleteParam (deleteParam P "q") "refresh") "q"
  rw [deleteParam_comm (deleteParam P "q") "refresh" "q", deleteParam_idem,
      deleteParam_comm P "q" "refresh"]

/-- Inserting a `refresh` pair anywhere in the request parameters does
not change the normalized search parameters. -/
lemma normalize_refresh_invariant (P1 P2 : Params) (v : String) :
    normalizeSearchParams (P1 ++ ("refresh", v) :: P2) = normalizeSearchParams (P1 ++ P2) := by
  unfold normalizeSearchParams
  have hmid : getParam (("refresh", v) :: P2) "q" = getParam P2 "q" := by
    simp [getParam, List.find?]
  have hq : getParam (P1 ++ ("refresh", v) :: P2) "q" = getParam (P1 ++ P2) "q" := by
    rw [getParam_append, getParam_append, hmid]
  have hsp : deleteParam (deleteParam (P1 ++ ("refresh", v) :: P2) "refresh") "q"
      = deleteParam (deleteParam (P1 ++ P2) "refresh") "q" := by
    unfold deleteParam
    simp [List.filter_append, List.filter_cons]
  rw [hq, hsp]

/-- A key absent from a list stays absent after filtering. -/
lemma hasParam_filter_false (l : Params) (p : String × String → Bool) (k : String)
    (h : hasParam l k = false) : hasParam (l.filter p) k = false := by
  unfold hasParam at h ⊢
  rw [Bool.eq_false_iff] at h ⊢
  intro hc
  apply h
  obtain ⟨x, hx, hk⟩ := List.any_eq_true.mp hc
  exact List.any_eq_true.mpr ⟨x, List.mem_of_mem_filter hx, hk⟩

/-! ## Lemmas about the cache-aside pipeline -/

/-- A cache miss always falls through to the backend. -/
lemma cacheShortCircuit_of_miss (rp : Params) (c : CacheOracle)
    (h : c.readResult = .miss) : cacheShortCircuit rp c = none := by
  unfold cacheShortCircuit
  rw [h]
  split <;> rfl

/-- Without `refresh`, a rejected cache read throws. -/
lemma cacheShortCircuit_of_error (rp : Params) (c : CacheOracle)
    (hr : hasParam rp "refresh" = false) (h : c.readResult = .storeError) :
    cacheShortCircuit rp c = some ⟨.thrown, [], []⟩ := by
  unfold cacheShortCircuit
  rw [hr, h]
  rfl

/-- A short-circuited run performs no backend fetch and no cache write. -/
lemma cacheShortCircuit_writes_nil (rp : Params) (c : CacheOracle) (r : RunResult)
    (h : cacheShortCircuit rp c = some r) : r.writes = [] ∧ r.fetches = [] := by
  unfold cacheShortCircuit at h
  split at h
  · cases h
  · split at h
    · cases h; exact ⟨rfl, rfl⟩
    · split at h
      · cases h
      · cases h; exact ⟨rfl, rfl⟩
    · cases h

/-- A cache miss always falls through in a `fetchRecent` sub-query. -/
lemma recentShortCircuit_of_miss (rp : Params) (c : CacheOracle) (dt : String)
    (h : c.readResult = .miss) : recentShortCircuit rp c dt = none := by
  unfold recentShortCircuit
  rw [h]
  split <;> rfl

/-- Without `refresh`, a truthy cache hit short-circuits with the stored
body and status 200. -/
lemma cacheShortCircuit_of_hit (rp : Params) (c : CacheOracle) (value : String)
    (hrefresh : hasParam rp "refresh" = false)
    (hh : c.readResult = .hit value) (hv : value ≠ "") :
    cacheShortCircuit rp c = some ⟨.response value 200, [], []⟩ := by
  have hb : (value == "") = false := beq_eq_false_iff_ne.mpr hv
  unfold cacheShortCircuit
  rw [hrefresh, hh]
  simp [hb]

/-- Without `refresh`, a rejected cache read makes a `fetchRecent`
sub-query reject. -/
lemma recentShortCircuit_of_error (rp : Params) (c : CacheOracle) (dt : String)
    (hrefresh : hasParam rp "refresh" = false) (h : c.readResult = .storeError) :
    recentShortCircuit rp c dt = some ⟨none, [], []⟩ := by
  unfold recentShortCircuit
  rw [hrefresh, h]
  rfl

/-- A short-circuited sub-query performs no fetch and no write. -/
lemma recentShortCircuit_writes_nil (rp : Params) (c : CacheOracle) (dt : String) (r : SubResult)
    (h : recentShortCircuit rp c dt = some r) : r.writes = [] ∧ r.fetches = [] := by
  unfold recentShortCircuit at h
  split at h
  · cases h
  · split at h
    · cases h; exact ⟨rfl, rfl⟩
    · split at h
      · split at h
        · cases h; exact ⟨rfl, rfl⟩
        · cases h
      · cases h; exact ⟨rfl, rfl⟩
    · cases h

/-- `searchPipe` writes nothing when the backend status is non-success. -/
lemma searchPipe_writes_of_not_ok (pipeFile : String) (rp sp : Params) (key : String)
    (cacheOf : String → CacheOracle) (apiOf : String → ApiResponse)
    (hnot : ∀ u, statusOk (apiOf u).status = false) :
    (searchPipe pipeFile rp sp key cacheOf apiOf).writes = [] := by
  simp only [searchPipe]
  split
  · next r heq => exact (cacheShortCircuit_writes_nil _ _ _ heq).1
  · next heq =>
    split
    · rfl
    · next records henv => simp [hnot]

/-- `searchGames` writes nothing when the backend status is non-success. -/
lemma searchGames_writes_of_not_ok (rp sp : Params) (key : String)
    (cacheOf : String → CacheOracle) (apiOf : String → ApiResponse)
    (hnot : ∀ u, statusOk (apiOf u).status = false) :
    (searchGames rp sp key cacheOf apiOf).writes = [] := by
  simp only [searchGames]
  split
  · next r heq => exact (cacheShortCircuit_writes_nil _ _ _ heq).1
  · next heq =>
    split
    · rfl
    · next records henv =>
      split
      · rfl
      · next decoded hdec => simp [hnot]

/-- `searchTimelines` writes nothing when the backend status is non-success. -/
lemma searchTimelines_writes_of_not_ok (searchType : String) (rp sp : Params) (key : String)
    (cacheOf : String → CacheOracle) (apiOf : String → ApiResponse)
    (hnot : ∀ u, statusOk (apiOf u).status = false) :
    (searchTimelines searchType rp sp key cacheOf apiOf).writes = [] := by
  unfold searchTimelines
  split
  · rfl
  · exact searchPipe_writes_of_not_ok _ _ _ _ _ _ hnot

/-- A `fetchRecent` sub-query writes nothing when its backend status is
non-success. -/
lemma recentSubquery_writes_of_not_ok (pipe : String) (rp : Params) (key : String)
    (cacheOf : String → CacheOracle) (apiOf : String → ApiResponse)
    (hnot : ∀ u, statusOk (apiOf u).status = false) :
    (recentSubquery pipe rp key cacheOf apiOf).writes = [] := by
  simp only [recentSubquery]
  split
  · next r heq => exact (recentShortCircuit_writes_nil _ _ _ _ heq).1
  · next heq =>
    split
    · rfl
    · next records henv =>
      split
      · rfl
      · next resultData hres => simp [hnot]

/-- `fetchRecent` writes nothing when every backend status is non-success. -/
lemma fetchRecent_writes_of_not_ok (rp : Params) (key : String)
    (cacheOf : String → CacheOracle) (apiOf : String → ApiResponse)
    (hnot : ∀ u, statusOk (apiOf u).status = false) :
    (fetchRecent rp key cacheOf apiOf).writes = [] := by
  have hsub : ∀ pipe, (recentSubquery pipe rp key cacheOf apiOf).writes = [] :=
    fun pipe => recentSubquery_writes_of_not_ok pipe rp key cacheOf apiOf hnot
  simp only [fetchRecent, recentPipes]
  split <;> simp [hsub]

/-- The backend fetch issued by `searchPipe` on a cache miss. -/
lemma searchPipe_fetches_of_miss (pipeFile : String) (rp sp : Params) (key : String)
    (cacheOf : String → CacheOracle) (apiOf : String → ApiResponse)
    (hmiss : ∀ u, (cacheOf u).readResult = .miss) :
    (searchPipe pipeFile rp sp key cacheOf apiOf).fetches
      = [buildKey (tinybirdBase ++ pipeFile) sp ++ "&token=" ++ key] := by
  simp only [searchPipe]
  rw [cacheShortCircuit_of_miss _ _ (hmiss _)]
  split
  · next r heq => cases heq
  · next _ =>
    split
    · rfl
    · next records henv =>
      split
      · split
        · rfl
        · rfl
      · rfl

/-- The full run of `searchPipe` on a cache miss with a parseable
envelope: the response carries the backend's status and the serialized
row set; the cache is written exactly on success. -/
lemma searchPipe_run_of_miss (pipeFile : String) (rp sp : Params) (key : String)
    (cacheOf : String → CacheOracle) (apiOf : String → ApiResponse)
    (records : List Json) (s : Nat)
    (hmiss : ∀ u, (cacheOf u).readResult = .miss)
    (henv : ∀ u, envelopeData (apiOf u).body = some records)
    (hs : ∀ u, (apiOf u).status = s) :
    searchPipe pipeFile rp sp key cacheOf apiOf =
      if statusOk s then
        if (cacheOf (buildKey (tinybirdBase ++ pipeFile) sp)).writeOk then
          ⟨.response (jsonStringify (Json.arr records)) s,
           [buildKey (tinybirdBase ++ pipeFile) sp ++ "&token=" ++ key],
           [(buildKey (tinybirdBase ++ pipeFile) sp, jsonStringify (Json.arr records))]⟩
        else ⟨.thrown,
           [buildKey (tinybirdBase ++ pipeFile) sp ++ "&token=" ++ key],
           [(buildKey (tinybirdBase ++ pipeFile) sp, jsonStringify (Json.arr records))]⟩
      else ⟨.response (jsonStringify (Json.arr records)) s,
            [buildKey (tinybirdBase ++ pipeFile) sp ++ "&token=" ++ key], []⟩ := by
  simp only [searchPipe]
  rw [cacheShortCircuit_of_miss _ _ (hmiss _), henv, hs]

/-- The full run of `searchGames` (without the `fuzzy` flag) on a cache
miss with a parseable, decodable envelope. -/
lemma searchGames_run_of_miss (rp sp : Params) (key : String)
    (cacheOf : String → CacheOracle) (apiOf : String → ApiResponse)
    (records decoded : List Json) (s : Nat)
    (hfz : hasParam rp "fuzzy" = false)
    (hmiss : ∀ u, (cacheOf u).readResult = .miss)
    (henv : ∀ u, envelopeData (apiOf u).body = some records)
    (hdec : decodeRecords records = some decoded)
    (hs : ∀ u, (apiOf u).status = s) :
    searchGames rp sp key cacheOf apiOf =
      if statusOk s then
        if (cacheOf (buildKey (tinybirdBase ++ "sc2_game_search" ++ ".json") sp)).writeOk then
          ⟨.response (jsonStringify (Json.arr (gamesOutputList sp decoded))) s,
           [buildKey (tinybirdBase ++ "sc2_game_search" ++ ".json") sp ++ "&token=" ++ key],
           [(buildKey (tinybirdBase ++ "sc2_game_search" ++ ".json") sp,
             jsonStringify (Json.arr (gamesOutputList sp decoded)))]⟩
        else ⟨.thrown,
           [buildKey (tinybirdBase ++ "sc2_game_search" ++ ".json") sp ++ "&token=" ++ key],
           [(buildKey (tinybirdBase ++ "sc2_game_search" ++ ".json") sp,
             jsonStringify (Json.arr (gamesOutputList sp decoded)))]⟩
      else ⟨.response (jsonStringify (Json.arr (gamesOutputList sp decoded))) s,
            [buildKey (tinybirdBase ++ "sc2_game_search" ++ ".json") sp ++ "&token=" ++ key], []⟩ := by
  simp only [searchGames, hfz, Bool.false_eq_true, if_false]
  rw [cacheShortCircuit_of_miss _ _ (hmiss _)]
  split
  · next r heq => cases heq
  · next _ =>
    split
    · next henv2 => rw [henv] at henv2; cases henv2
    · next records2 henv2 =>
      rw [henv] at henv2
      injection henv2 with h2
      subst h2
      split
      · next hdec2 => rw [hdec] at hdec2; cases hdec2
      · next decoded2 hdec2 =>
        rw [hdec] at hdec2
        injection hdec2 with h3
        subst h3
        rw [hs]

/-- Without `refresh`, a rejected cache read aborts `searchPipe` with no
backend call and no cache write. -/
lemma searchPipe_read_error (file : String) (rp sp : Params) (key : String)
    (cro : String → CacheOracle) (apiOf : String → ApiResponse)
    (hrefresh : hasParam rp "refresh" = false)
    (hread : ∀ u, (cro u).readResult = .storeError) :
    searchPipe file rp sp key cro apiOf = ⟨.thrown, [], []⟩ := by
  simp only [searchPipe]
  rw [cacheShortCircuit_of_error _ _ hrefresh (hread _)]

/-- Without `refresh`, a rejected cache read aborts `searchGames` with no
backend call and no cache write. -/
lemma searchGames_read_error (rp sp : Params) (key : String)
    (cro : String → CacheOracle) (apiOf : String → ApiResponse)
    (hrefresh : hasParam rp "refresh" = false)
    (hread : ∀ u, (cro u).readResult = .storeError) :
    searchGames rp sp key cro apiOf = ⟨.thrown, [], []⟩ := by
  simp only [searchGames]
  rw [cacheShortCircuit_of_error _ _ hrefresh (hread _)]

/-- Without `refresh`, a rejected cache read rejects a `fetchRecent`
sub-query with no backend call and no cache write. -/
lemma recentSubquery_read_error (pipe : String) (rp : Params) (key : String)
    (cro : String → CacheOracle) (apiOf : String → ApiResponse)
    (hrefresh : hasParam rp "refresh" = false)
    (hread : ∀ u, (cro u).readResult = .storeError) :
    recentSubquery pipe rp key cro apiOf = ⟨none, [], []⟩ := by
  simp only [recentSubquery]
  rw [recentShortCircuit_of_error _ _ _ hrefresh (hread _)]

/-- Without `refresh`, a rejected cache read aborts `fetchRecent` (the
rejected sub-promise rejects the `Promise.all`) with no backend call and
no cache write. -/
lemma fetchRecent_read_error (rp : Params) (key : String)
    (cro : String → CacheOracle) (apiOf : String → ApiResponse)
    (hrefresh : hasParam rp "refresh" = false)
    (hread : ∀ u, (cro u).readResult = .storeError) :
    fetchRecent rp key cro apiOf = ⟨.thrown, [], []⟩ := by
  have h : ∀ pipe, recentSubquery pipe rp key cro apiOf = ⟨none, [], []⟩ :=
    fun pipe => recentSubquery_read_error pipe rp key cro apiOf hrefresh hread
  simp [fetchRecent, recentPipes, h]

/-- A rejected cache write aborts `searchPipe` although the backend call
succeeded. -/
lemma searchPipe_write_error (file : String) (rp sp : Params) (key : String)
    (cwo : String → CacheOracle) (apiOf : String → ApiResponse)
    (records : List Json) (s : Nat)
    (hmiss : ∀ u, (cwo u).readResult = .miss)
    (hwf : ∀ u, (cwo u).writeOk = false)
    (henv : ∀ u, envelopeData (apiOf u).body = some records)
    (hs : ∀ u, (apiOf u).status = s)
    (hok : statusOk s = true) :
    (searchPipe file rp sp key cwo apiOf).outcome = .thrown := by
  rw [searchPipe_run_of_miss _ _ _ _ _ _ _ _ hmiss henv hs, if_pos hok,
    if_neg (by simp [hwf])]

/-- A rejected cache write aborts `searchGames` although the backend call
succeeded. -/
lemma searchGames_write_error (rp sp : Params) (key : String)
    (cwo : String → CacheOracle) (apiOf : String → ApiResponse)
    (records decoded : List Json) (s : Nat)
    (hmiss : ∀ u, (cwo u).readResult = .miss)
    (hwf : ∀ u, (cwo u).writeOk = false)
    (henv : ∀ u, envelopeData (apiOf u).body = some records)
    (hdec : decodeRecords records = some decoded)
    (hs : ∀ u, (apiOf u).status = s)
    (hok : statusOk s = true) :
    (searchGames rp sp key cwo apiOf).outcome = .thrown := by
  simp only [searchGames]
  rw [cacheShortCircuit_of_miss _ _ (hmiss _)]
  split
  · next r heq => cases heq
  · next _ =>
    split
    · next henv2 => rw [henv] at henv2
    · next records2 henv2 =>
      rw [henv] at henv2
      injection henv2 with h2
      subst h2
      split
      · next hdec2 => rw [hdec] at hdec2
      · next decoded2 hdec2 =>
        rw [hdec] at hdec2
        injection hdec2 with h3
        subst h3
        simp [hs, hok, hwf]

/-- A rejected cache write rejects a `fetchRecent` sub-query although its
backend call succeeded. -/
lemma recentSubquery_write_error (pipe : String) (rp : Params) (key : String)
    (cwo : String → CacheOracle) (apiOf : String → ApiResponse)
    (records decoded : List Json) (s : Nat)
    (hmiss : ∀ u, (cwo u).readResult = .miss)
    (hwf : ∀ u, (cwo u).writeOk = false)
    (henv : ∀ u, envelopeData (apiOf u).body = some records)
    (hdec : decodeRecords records = some decoded)
    (hs : ∀ u, (apiOf u).status = s)
    (hok : statusOk s = true) :
    (recentSubquery pipe rp key cwo apiOf).entry = none := by
  simp only [recentSubquery]
  rw [recentShortCircuit_of_miss _ _ _ (hmiss _)]
  split
  · next r heq => cases heq
  · next _ =>
    split
    · next henv2 => rw [henv] at henv2
    · next records2 henv2 =>
      rw [henv] at henv2
      injection henv2 with h2
      subst h2
      split
      · next hres =>
        by_cases hdt : (dataTypeOf pipe == "replays") = true
        · rw [if_pos hdt, hdec] at hres
        · rw [if_neg hdt] at hres
      · next resultData hres =>
        simp [hs, hok, hwf]

/-- A rejected cache write on every sub-query aborts `fetchRecent`
although every backend call succeeded. -/
lemma fetchRecent_write_error (rp : Params) (key : String)
    (cwo : String → CacheOracle) (apiOf : String → ApiResponse)
    (records decoded : List Json) (s : Nat)
    (hmiss : ∀ u, (cwo u).readResult = .miss)
    (hwf : ∀ u, (cwo u).writeOk = false)
    (henv : ∀ u, envelopeData (apiOf u).body = some records)
    (hdec : decodeRecords records = some decoded)
    (hs : ∀ u, (apiOf u).status = s)
    (hok : statusOk s = true) :
    (fetchRecent rp key cwo apiOf).outcome = .thrown := by
  have h : ∀ pipe, (recentSubquery pipe rp key cwo apiOf).entry = none :=
    fun pipe =>
      recentSubquery_write_error pipe rp key cwo apiOf records decoded s
        hmiss hwf henv hdec hs hok
  simp [fetchRecent, recentPipes, h]

/-- Without `refresh`, a truthy cache hit makes `searchPipe` answer the
stored body with status 200 and no backend call. -/
lemma searchPipe_hit (file : String) (rp sp : Params) (key value : String)
    (chit : String → CacheOracle) (apiOf : String → ApiResponse)
    (hrefresh : hasParam rp "refresh" = false)
    (hhit : ∀ u, (chit u).readResult = .hit value) (hv : value ≠ "") :
    searchPipe file rp sp key chit apiOf = ⟨.response value 200, [], []⟩ := by
  simp only [searchPipe]
  rw [cacheShortCircuit_of_hit _ _ _ hrefresh (hhit _) hv]

/-- Without `refresh`, a truthy cache hit makes `searchGames` answer the
stored body with status 200 and no backend call. -/
lemma searchGames_hit (rp sp : Params) (key value : String)
    (chit : String → CacheOracle) (apiOf : String → ApiResponse)
    (hrefresh : hasParam rp "refresh" = false)
    (hhit : ∀ u, (chit u).readResult = .hit value) (hv : value ≠ "") :
    searchGames rp sp key chit apiOf = ⟨.response value 200, [], []⟩ := by
  simp only [searchGames]
  rw [cacheShortCircuit_of_hit _ _ _ hrefresh (hhit _) hv]

/-- On a cache miss, `searchGames` issues exactly one backend call
whatever the backend answers. -/
lemma searchGames_fetch_count (rp sp : Params) (key : String)
    (cmiss : String → CacheOracle) (apiOf : String → ApiResponse)
    (hmiss : ∀ u, (cmiss u).readResult = .miss) :
    (searchGames rp sp key cmiss apiOf).fetches.length = 1 := by
  simp only [searchGames]
  rw [cacheShortCircuit_of_miss _ _ (hmiss _)]
  split
  · next r heq => cases heq
  · next _ => repeat' first | rfl | split

/-- The reordering, spelled as the two stable partitions. -/
lemma orderedResultsOf_eq_filter (sp : Params) (rs : List Json) (input : String)
    (hin : getParam sp "input" = some input) (hne : input ≠ "") :
    orderedResultsOf sp rs
      = rs.filter (isExactMatch (jsSplit input '+'))
        ++ rs.filter (fun r => !(isExactMatch (jsSplit input '+') r)) := by
  have hb : (input == "") = false := beq_eq_false_iff_ne.mpr hne
  unfold orderedResultsOf
  rw [hin]
  show (if (input == "") = true then rs else rerank (jsSplit input '+') rs) = _
  rw [hb, if_neg (by simp)]
  exact rerank_eq_filter _ _

/-! ## Concrete test data -/

/-- A decoded replay whose only player is Serral (no query-term match). -/
def replayNoMatchA : Json :=
  Json.obj [("map", Json.str "Alcyone"), ("builds", Json.arr []),
            ("players", Json.arr [Json.obj [("name", Json.str "Serral")]])]

/-- A decoded replay with player Nova (exact match for term `nova`). -/
def replayExactB : Json :=
  Json.obj [("map", Json.str "Babylon"), ("builds", Json.arr []),
            ("players", Json.arr [Json.obj [("name", Json.str "Nova")]])]

/-- A decoded replay whose only player is Maru (no query-term match). -/
def replayNoMatchC : Json :=
  Json.obj [("map", Json.str "Colossus"), ("builds", Json.arr []),
            ("players", Json.arr [Json.obj [("name", Json.str "Maru")]])]

/-- A decoded replay with players Dark and nova (exact match). -/
def replayExactD : Json :=
  Json.obj [("map", Json.str "Dynasty"), ("builds", Json.arr []),
            ("players", Json.arr [Json.obj [("name", Json.str "Dark")],
                                  Json.obj [("name", Json.str "nova")]])]

/-- A backend replay row as delivered by the analytics API: `builds` and
`players` are JSON-encoded strings. -/
def rawReplayRecord : Json :=
  Json.obj [("builds", Json.str "[]"),
            ("players", Json.str "[\x7b\"name\":\"x\"\x7d]")]

/-- The same row after the nested decode pass. -/
def decodedReplayRecord : Json :=
  Json.obj [("builds", Json.arr []),
            ("players", Json.arr [Json.obj [("name", Json.str "x")]])]

/-- A successful backend body whose single data row is `rawReplayRecord`. -/
def replayEnvelopeBody : String :=
  jsonStringify (Json.obj [("data", Json.arr [rawReplayRecord])])

/-- On a cache miss, `searchPipe` issues exactly one backend call
whatever the backend then answers. -/
lemma timeline_fetch_count (pipeFile : String) (params : Params) (key : String)
    (cacheOf : String → CacheOracle) (apiOf : String → ApiResponse)
    (hmiss : ∀ u, (cacheOf u).readResult = .miss) :
    (searchPipe pipeFile params (normalizeSearchParams params) key cacheOf apiOf).fetches.length
      = 1 := by
  rw [searchPipe_fetches_of_miss _ _ _ _ _ _ hmiss]
  rfl

/-! ## Claims -/

/-- C1, as stated, is false: the two normalized parameter mappings below
have identical key/value content (they are permutations of each other and
both are normalization fixpoints) but different insertion order, and the
cache keys built for the game-search endpoint differ, because the query
string preserves insertion order and is never sorted. -/
theorem c1_counterexample :
    ([("matchup", "PvT"), ("race", "protoss")] : Params).Perm
      [("race", "protoss"), ("matchup", "PvT")]
    ∧ normalizeSearchParams [("matchup", "PvT"), ("race", "protoss")]
        = [("matchup", "PvT"), ("race", "protoss")]
    ∧ normalizeSearchParams [("race", "protoss"), ("matchup", "PvT")]
        = [("race", "protoss"), ("matchup", "PvT")]
    ∧ buildKey (tinybirdBase ++ "sc2_game_search.json") [("matchup", "PvT"), ("race", "protoss")]
        ≠ buildKey (tinybirdBase ++ "sc2_game_search.json") [("race", "protoss"), ("matchup", "PvT")] :=
  ⟨List.Perm.swap _ _ _, rfl, rfl, by decide⟩

/-- C1 amended: the cache key is a deterministic function of the ordered
normalized parameter list (and excludes the auth token by construction);
it is invariant under the `refresh` flag wherever inserted, but mappings
with identical content in different insertion orders may produce
different keys. -/
theorem c1_key_deterministic_amended (endpoint : String) (P1 P2 : Params) (v : String) :
    buildKey endpoint (normalizeSearchParams (P1 ++ ("refresh", v) :: P2))
      = buildKey endpoint (normalizeSearchParams (P1 ++ P2)) := by
  rw [normalize_refresh_invariant]

/-- C6: for a game-search request with a non-empty free-text query, the
reranking is the stable partition by exact player-name match: exact
matches (some player name equals some `+`-separated term,
case-insensitively) first in backend order, then the rest in backend
order. -/
theorem c6_exact_match_promotion (sp : Params) (rs : List Json) (input : String)
    (hin : getParam sp "input" = some input) (hne : input ≠ "") :
    orderedResultsOf sp rs
      = rs.filter (isExactMatch (jsSplit input '+'))
        ++ rs.filter (fun r => !(isExactMatch (jsSplit input '+') r)) :=
  orderedResultsOf_eq_filter sp rs input hin hne

/-- C6 witness: backend order [A(no match), B(exact), C(no match),
D(exact)] with query `nova` yields output order [B, D, A, C]. -/
theorem c6_witness :
    orderedResultsOf [("input", "nova")]
        [replayNoMatchA, replayExactB, replayNoMatchC, replayExactD]
      = [replayExactB, replayExactD, replayNoMatchA, replayNoMatchC] :=
  (c6_exact_match_promotion [("input", "nova")]
    [replayNoMatchA, replayExactB, replayNoMatchC, replayExactD]
    "nova" rfl (by decide)).trans (by rfl)

/-- C9: a request with `q` present but empty normalizes exactly like the
same request with `q` absent; in particular (when the caller did not pass
an explicit `input` parameter) no `input` is forwarded and the relevance
reordering is skipped. -/
theorem c9_empty_q_like_absent (P : Params) (rs : List Json)
    (h : getParam P "q" = some "") :
    normalizeSearchParams P = normalizeSearchParams (deleteParam P "q")
    ∧ (hasParam P "input" = false →
        getParam (normalizeSearchParams P) "input" = none
        ∧ orderedResultsOf (normalizeSearchParams P) rs = rs) := by
  refine ⟨normalize_q_empty P h, fun hip => ?_⟩
  have hg : getParam (normalizeSearchParams P) "input" = none := by
    unfold normalizeSearchParams
    rw [h]
    show getParam (deleteParam (deleteParam P "refresh") "q") "input" = none
    unfold deleteParam
    exact getParam_filter_eq_none _ _ _ (hasParam_filter_false _ _ _ hip)
  refine ⟨hg, ?_⟩
  unfold orderedResultsOf
  rw [hg]

/-- C9 witness at a concrete request carrying an empty `q`. -/
theorem c9_witness :
    normalizeSearchParams [("q", ""), ("matchup", "PvZ")]
        = normalizeSearchParams (deleteParam [("q", ""), ("matchup", "PvZ")] "q")
    ∧ (hasParam [("q", ""), ("matchup", "PvZ")] "input" = false →
        getParam (normalizeSearchParams [("q", ""), ("matchup", "PvZ")]) "input" = none
        ∧ orderedResultsOf (normalizeSearchParams [("q", ""), ("matchup", "PvZ")])
            [replayExactB] = [replayExactB]) :=
  c9_empty_q_like_absent _ _ rfl

/-- C10: for every game-search parameter set and backend result list, the
reranked list (before the 20-entry truncation) is a permutation of the
backend's list — no replay is dropped or duplicated, however many of its
players match. -/
theorem c10_rerank_is_permutation (sp : Params) (rs : List Json) :
    (orderedResultsOf sp rs).Perm rs :=
  orderedResultsOf_perm sp rs

/-- C2, as stated, is false: the quantile-variant timeline path is not a
recognized endpoint — the router answers it with the 400 unknown-path
response and performs no backend call. -/
theorem c2_counterexample :
    handleRequest "/timeline/quantiles/game-length" [] "key"
        (fun _ => ⟨.miss, true⟩) (fun _ => ⟨200, "\x7b\"data\":[]\x7d"⟩)
      = ⟨.response "invalid path: /timeline/quantiles/game-length" 400, [], []⟩ := by
  rfl

/-- C2 amended: each of the four plain timeline metric paths is a
recognized single-query endpoint — on a cache miss it issues exactly one
backend call — while its quantile-variant path is unrecognized and
receives the 400 invalid-path response. -/
theorem c2_timeline_routing_amended (metric : String)
    (hm : metric ∈ ["game-length", "army-value", "collection-rate", "workers-active"])
    (params : Params) (key : String)
    (cacheOf : String → CacheOracle) (apiOf : String → ApiResponse)
    (hmiss : ∀ u, (cacheOf u).readResult = .miss) :
    (handleRequest ("/timeline/" ++ metric) params key cacheOf apiOf).fetches.length = 1
    ∧ (handleRequest ("/timeline/quantiles/" ++ metric) params key cacheOf apiOf).outcome
        = .response ("invalid path: /timeline/quantiles/" ++ metric) 400 := by
  fin_cases hm
  · exact ⟨timeline_fetch_count "sc2_timeline_game_length_search.json" params key cacheOf apiOf hmiss, rfl⟩
  · exact ⟨timeline_fetch_count "sc2_timeline_army_value_search.json" params key cacheOf apiOf hmiss, rfl⟩
  · exact ⟨timeline_fetch_count "sc2_timeline_collection_rate_search.json" params key cacheOf apiOf hmiss, rfl⟩
  · exact ⟨timeline_fetch_count "sc2_timeline_workers_active_search.json" params key cacheOf apiOf hmiss, rfl⟩

/-- C2 witness at the game-length metric with an everywhere-missing cache. -/
theorem c2_witness :
    (handleRequest "/timeline/game-length" [] "key"
        (fun _ => ⟨.miss, true⟩) (fun _ => ⟨200, "\x7b\"data\":[]\x7d"⟩)).fetches.length = 1
    ∧ (handleRequest "/timeline/quantiles/game-length" [] "key"
        (fun _ => ⟨.miss, true⟩) (fun _ => ⟨200, "\x7b\"data\":[]\x7d"⟩)).outcome
        = .response "invalid path: /timeline/quantiles/game-length" 400 :=
  c2_timeline_routing_amended "game-length" (by decide) [] "key"
    (fun _ => ⟨.miss, true⟩) (fun _ => ⟨200, "\x7b\"data\":[]\x7d"⟩) (fun _ => rfl)

/-- C3, as stated, is false: with no `refresh` flag, a failing cache read
makes `searchGames` throw instead of being treated as a miss, and a
failing cache write makes it throw instead of still returning the
backend's result. -/
theorem c3_counterexample :
    searchGames [] [] "key" (fun _ => ⟨.storeError, true⟩)
        (fun _ => ⟨200, "\x7b\"data\":[]\x7d"⟩)
      = ⟨.thrown, [], []⟩
    ∧ (searchGames [] [] "key" (fun _ => ⟨.miss, false⟩)
        (fun _ => ⟨200, "\x7b\"data\":[]\x7d"⟩)).outcome = .thrown :=
  ⟨rfl, rfl⟩

/-- C3 amended: external-cache failures are fatal on every endpoint.
Without `refresh`: a rejected cache read aborts the request with no
backend call and no cache write (conjuncts 1-5: game search, the shared
single-pipe handler, timelines, each `/recent` sub-query, `/recent` as a
whole); a rejected cache write aborts the response even though the
backend call succeeded (conjuncts 6-10); only a miss falls through to
the backend — a miss issues the single backend call (conjuncts 11-12)
while a truthy hit short-circuits with the stored body, no backend call
and no write (conjuncts 13-14). -/
theorem c3_cache_errors_fatal_amended (file searchType pf pipe : String)
    (rp sp : Params) (key value : String)
    (cro cwo chit cmiss : String → CacheOracle) (apiOf : String → ApiResponse)
    (records decoded : List Json) (s : Nat)
    (hrefresh : hasParam rp "refresh" = false)
    (hread : ∀ u, (cro u).readResult = .storeError)
    (hmiss : ∀ u, (cwo u).readResult = .miss)
    (hwf : ∀ u, (cwo u).writeOk = false)
    (hmiss2 : ∀ u, (cmiss u).readResult = .miss)
    (hhit : ∀ u, (chit u).readResult = .hit value)
    (hv : value ≠ "")
    (henv : ∀ u, envelopeData (apiOf u).body = some records)
    (hdec : decodeRecords records = some decoded)
    (hs : ∀ u, (apiOf u).status = s)
    (hok : statusOk s = true)
    (hpf : timelinePipeFile searchType = some pf) :
    searchGames rp sp key cro apiOf = ⟨.thrown, [], []⟩
    ∧ searchPipe file rp sp key cro apiOf = ⟨.thrown, [], []⟩
    ∧ searchTimelines searchType rp sp key cro apiOf = ⟨.thrown, [], []⟩
    ∧ recentSubquery pipe rp key cro apiOf = ⟨none, [], []⟩
    ∧ fetchRecent rp key cro apiOf = ⟨.thrown, [], []⟩
    ∧ (searchGames rp sp key cwo apiOf).outcome = .thrown
    ∧ (searchPipe file rp sp key cwo apiOf).outcome = .thrown
    ∧ (searchTimelines searchType rp sp key cwo apiOf).outcome = .thrown
    ∧ (recentSubquery pipe rp key cwo apiOf).entry = none
    ∧ (fetchRecent rp key cwo apiOf).outcome = .thrown
    ∧ (searchGames rp sp key cmiss apiOf).fetches.length = 1
    ∧ (searchPipe file rp sp key cmiss apiOf).fetches
        = [buildKey (tinybirdBase ++ file) sp ++ "&token=" ++ key]
    ∧ searchGames rp sp key chit apiOf = ⟨.response value 200, [], []⟩
    ∧ searchPipe file rp sp key chit apiOf = ⟨.response value 200, [], []⟩ := by
  have htl : searchTimelines searchType rp sp key cro apiOf
      = searchPipe pf rp sp key cro apiOf := by
    unfold searchTimelines; rw [hpf]
  have htl2 : searchTimelines searchType rp sp key cwo apiOf
      = searchPipe pf rp sp key cwo apiOf := by
    unfold searchTimelines; rw [hpf]
  refine ⟨searchGames_read_error rp sp key cro apiOf hrefresh hread,
    searchPipe_read_error file rp sp key cro apiOf hrefresh hread,
    htl.trans (searchPipe_read_error pf rp sp key cro apiOf hrefresh hread),
    recentSubquery_read_error pipe rp key cro apiOf hrefresh hread,
    fetchRecent_read_error rp key cro apiOf hrefresh hread,
    searchGames_write_error rp sp key cwo apiOf records decoded s
      hmiss hwf henv hdec hs hok,
    searchPipe_write_error file rp sp key cwo apiOf records s
      hmiss hwf henv hs hok,
    ?_,
    recentSubquery_write_error pipe rp key cwo apiOf records decoded s
      hmiss hwf henv hdec hs hok,
    fetchRecent_write_error rp key cwo apiOf records decoded s
      hmiss hwf henv hdec hs hok,
    searchGames_fetch_count rp sp key cmiss apiOf hmiss2,
    searchPipe_fetches_of_miss file rp sp key cmiss apiOf hmiss2,
    searchGames_hit rp sp key value chit apiOf hrefresh hhit hv,
    searchPipe_hit file rp sp key value chit apiOf hrefresh hhit hv⟩
  rw [htl2]
  exact searchPipe_write_error pf rp sp key cwo apiOf records s hmiss hwf henv hs hok

/-- C3 witness at concrete oracles: read failures abort every handler
with no backend call and nothing written; write failures abort despite a
200 backend answer; a miss issues the one backend call and a truthy hit
short-circuits. -/
theorem c3_witness :
    searchGames [("matchup", "PvZ")] [] "key" (fun _ => ⟨.storeError, true⟩)
        (fun _ => ⟨200, replayEnvelopeBody⟩) = ⟨.thrown, [], []⟩
    ∧ searchPipe "sc2_player_search.json" [("matchup", "PvZ")] [] "key"
        (fun _ => ⟨.storeError, true⟩) (fun _ => ⟨200, replayEnvelopeBody⟩)
        = ⟨.thrown, [], []⟩
    ∧ searchTimelines "game-length" [("matchup", "PvZ")] [] "key"
        (fun _ => ⟨.storeError, true⟩) (fun _ => ⟨200, replayEnvelopeBody⟩)
        = ⟨.thrown, [], []⟩
    ∧ recentSubquery "sc2_recent_games" [("matchup", "PvZ")] "key"
        (fun _ => ⟨.storeError, true⟩) (fun _ => ⟨200, replayEnvelopeBody⟩)
        = ⟨none, [], []⟩
    ∧ fetchRecent [("matchup", "PvZ")] "key" (fun _ => ⟨.storeError, true⟩)
        (fun _ => ⟨200, replayEnvelopeBody⟩) = ⟨.thrown, [], []⟩
    ∧ (searchGames [("matchup", "PvZ")] [] "key" (fun _ => ⟨.miss, false⟩)
        (fun _ => ⟨200, replayEnvelopeBody⟩)).outcome = .thrown
    ∧ (searchPipe "sc2_player_search.json" [("matchup", "PvZ")] [] "key"
        (fun _ => ⟨.miss, false⟩) (fun _ => ⟨200, replayEnvelopeBody⟩)).outcome = .thrown
    ∧ (searchTimelines "game-length" [("matchup", "PvZ")] [] "key"
        (fun _ => ⟨.miss, false⟩) (fun _ => ⟨200, replayEnvelopeBody⟩)).outcome = .thrown
    ∧ (recentSubquery "sc2_recent_games" [("matchup", "PvZ")] "key"
        (fun _ => ⟨.miss, false⟩) (fun _ => ⟨200, replayEnvelopeBody⟩)).entry = none
    ∧ (fetchRecent [("matchup", "PvZ")] "key" (fun _ => ⟨.miss, false⟩)
        (fun _ => ⟨200, replayEnvelopeBody⟩)).outcome = .thrown
    ∧ (searchGames [("matchup", "PvZ")] [] "key" (fun _ => ⟨.miss, true⟩)
        (fun _ => ⟨200, replayEnvelopeBody⟩)).fetches.length = 1
    ∧ (searchPipe "sc2_player_search.json" [("matchup", "PvZ")] [] "key"
        (fun _ => ⟨.miss, true⟩) (fun _ => ⟨200, replayEnvelopeBody⟩)).fetches
        = [buildKey (tinybirdBase ++ "sc2_player_search.json") [] ++ "&token=" ++ "key"]
    ∧ searchGames [("matchup", "PvZ")] [] "key" (fun _ => ⟨.hit "[1]", true⟩)
        (fun _ => ⟨200, replayEnvelopeBody⟩) = ⟨.response "[1]" 200, [], []⟩
    ∧ searchPipe "sc2_player_search.json" [("matchup", "PvZ")] [] "key"
        (fun _ => ⟨.hit "[1]", true⟩) (fun _ => ⟨200, replayEnvelopeBody⟩)
        = ⟨.response "[1]" 200, [], []⟩ :=
  c3_cache_errors_fatal_amended "sc2_player_search.json" "game-length"
    "sc2_timeline_game_length_search.json" "sc2_recent_games"
    [("matchup", "PvZ")] [] "key" "[1]"
    (fun _ => ⟨.storeError, true⟩) (fun _ => ⟨.miss, false⟩)
    (fun _ => ⟨.hit "[1]", true⟩) (fun _ => ⟨.miss, true⟩)
    (fun _ => ⟨200, replayEnvelopeBody⟩)
    [rawReplayRecord] [decodedReplayRecord] 200
    rfl (fun _ => rfl) (fun _ => rfl) (fun _ => rfl) (fun _ => rfl) (fun _ => rfl)
    (by decide) (fun _ => rfl) rfl (fun _ => rfl) rfl rfl

/-- C4, as stated, is false: on a backend error the status is forwarded,
but the body sent to the caller is the re-serialized (post-processed)
`data` row set, not the body the backend returned. -/
theorem c4_counterexample :
    (searchPlayers [] [] "key" (fun _ => ⟨.miss, true⟩)
        (fun _ => ⟨500, "\x7b\"meta\":[],\"data\":[],\"rows\":0\x7d"⟩)).outcome
      = .response "[]" 500
    ∧ ("[]" : String) ≠ "\x7b\"meta\":[],\"data\":[],\"rows\":0\x7d" :=
  ⟨rfl, by decide⟩

/-- C4 amended: on a non-success backend status (with a parseable
envelope), single-query endpoints answer with the backend's status and
the JSON serialization of the post-processed data rows — not the
backend's raw body — and perform no cache write. -/
theorem c4_backend_error_forwarding_amended (file : String) (rp sp rp2 sp2 : Params)
    (key : String) (cacheOf : String → CacheOracle) (apiOf : String → ApiResponse)
    (records decoded : List Json) (s : Nat)
    (hmiss : ∀ u, (cacheOf u).readResult = .miss)
    (henv : ∀ u, envelopeData (apiOf u).body = some records)
    (hs : ∀ u, (apiOf u).status = s)
    (hnot : statusOk s = false)
    (hdec : decodeRecords records = some decoded)
    (hfz : hasParam rp2 "fuzzy" = false) :
    searchPipe file rp sp key cacheOf apiOf
      = ⟨.response (jsonStringify (Json.arr records)) s,
         [buildKey (tinybirdBase ++ file) sp ++ "&token=" ++ key], []⟩
    ∧ searchGames rp2 sp2 key cacheOf apiOf
      = ⟨.response (jsonStringify (Json.arr (gamesOutputList sp2 decoded))) s,
         [buildKey (tinybirdBase ++ "sc2_game_search" ++ ".json") sp2 ++ "&token=" ++ key],
         []⟩ := by
  constructor
  · rw [searchPipe_run_of_miss _ _ _ _ _ _ _ _ hmiss henv hs, if_neg (by simp [hnot])]
  · rw [searchGames_run_of_miss _ _ _ _ _ _ _ _ hfz hmiss henv hdec hs, if_neg (by simp [hnot])]

/-- C4 witness: a 500 answer with one replay row is forwarded with status
500, re-serialized rows as the body, and no cache write. -/
theorem c4_witness :
    searchPipe "sc2_player_search.json" [] [] "key" (fun _ => ⟨.miss, true⟩)
        (fun _ => ⟨500, replayEnvelopeBody⟩)
      = ⟨.response (jsonStringify (Json.arr [rawReplayRecord])) 500,
         [buildKey (tinybirdBase ++ "sc2_player_search.json") [] ++ "&token=" ++ "key"], []⟩
    ∧ searchGames [] [] "key" (fun _ => ⟨.miss, true⟩) (fun _ => ⟨500, replayEnvelopeBody⟩)
      = ⟨.response (jsonStringify (Json.arr (gamesOutputList [] [decodedReplayRecord]))) 500,
         [buildKey (tinybirdBase ++ "sc2_game_search" ++ ".json") [] ++ "&token=" ++ "key"],
         []⟩ :=
  c4_backend_error_forwarding_amended "sc2_player_search.json" [] [] [] [] "key"
    (fun _ => ⟨.miss, true⟩) (fun _ => ⟨500, replayEnvelopeBody⟩)
    [rawReplayRecord] [decodedReplayRecord] 500
    (fun _ => rfl) (fun _ => rfl) (fun _ => rfl) rfl rfl rfl

set_option maxRecDepth 4096 in
/-- C5 is a code bug, evaluated here at a failing input: on a `/recent`
cache miss, the cache write for the `sc2_recent_games` sub-query stores
the serialization of the *undecoded* rows (`builds`/`players` still
JSON-encoded strings, `index.ts` line 360), although the decode was
performed (third conjunct) and the response's `replays` entry uses the
decoded rows (second conjunct); the two serializations differ (fourth
conjunct). -/
theorem c5_recent_cache_write_not_decoded :
    (fetchRecent [] "key" (fun _ => ⟨.miss, true⟩)
        (fun _ => ⟨200, replayEnvelopeBody⟩)).writes.head?
      = some (tinybirdBase ++ "sc2_recent_games.json", jsonStringify (Json.arr [rawReplayRecord]))
    ∧ (fetchRecent [] "key" (fun _ => ⟨.miss, true⟩)
        (fun _ => ⟨200, replayEnvelopeBody⟩)).outcome
      = .response (jsonStringify (Json.obj
          [("replays", Json.arr [decodedReplayRecord]),
           ("players", Json.arr [rawReplayRecord]),
           ("maps", Json.arr [rawReplayRecord]),
           ("events", Json.arr [rawReplayRecord])])) 200
    ∧ decodeRecord rawReplayRecord = some decodedReplayRecord
    ∧ jsonStringify (Json.arr [rawReplayRecord]) ≠ jsonStringify (Json.arr [decodedReplayRecord]) :=
  ⟨by decide, by decide, by rfl, by decide⟩

/-- C7: whatever the cache behavior, a non-success backend status means
no cache write is attempted, on every endpoint (game search, the shared
single-pipe handler behind players/maps/events/builds, timelines, each
`/recent` sub-query, and `/recent` as a whole). -/
theorem c7_no_cache_poisoning (file searchType pipe : String) (rp sp : Params)
    (key : String) (cacheOf : String → CacheOracle) (apiOf : String → ApiResponse)
    (hnot : ∀ u, statusOk (apiOf u).status = false) :
    (searchGames rp sp key cacheOf apiOf).writes = []
    ∧ (searchPipe file rp sp key cacheOf apiOf).writes = []
    ∧ (searchTimelines searchType rp sp key cacheOf apiOf).writes = []
    ∧ (recentSubquery pipe rp key cacheOf apiOf).writes = []
    ∧ (fetchRecent rp key cacheOf apiOf).writes = [] :=
  ⟨searchGames_writes_of_not_ok _ _ _ _ _ hnot,
   searchPipe_writes_of_not_ok _ _ _ _ _ _ hnot,
   searchTimelines_writes_of_not_ok _ _ _ _ _ _ hnot,
   recentSubquery_writes_of_not_ok _ _ _ _ _ hnot,
   fetchRecent_writes_of_not_ok _ _ _ _ hnot⟩

/-- C7 witness with an everywhere-503 backend. -/
theorem c7_witness :
    (searchGames [] [] "key" (fun _ => ⟨.miss, true⟩)
        (fun _ => ⟨503, "\x7b\"data\":[]\x7d"⟩)).writes = []
    ∧ (searchPipe "sc2_player_search.json" [] [] "key" (fun _ => ⟨.miss, true⟩)
        (fun _ => ⟨503, "\x7b\"data\":[]\x7d"⟩)).writes = []
    ∧ (searchTimelines "game-length" [] [] "key" (fun _ => ⟨.miss, true⟩)
        (fun _ => ⟨503, "\x7b\"data\":[]\x7d"⟩)).writes = []
    ∧ (recentSubquery "sc2_recent_games" [] "key" (fun _ => ⟨.miss, true⟩)
        (fun _ => ⟨503, "\x7b\"data\":[]\x7d"⟩)).writes = []
    ∧ (fetchRecent [] "key" (fun _ => ⟨.miss, true⟩)
        (fun _ => ⟨503, "\x7b\"data\":[]\x7d"⟩)).writes = [] :=
  c7_no_cache_poisoning "sc2_player_search.json" "game-length" "sc2_recent_games" [] [] "key"
    (fun _ => ⟨.miss, true⟩) (fun _ => ⟨503, "\x7b\"data\":[]\x7d"⟩) (fun _ => rfl)

/-- C8: with 25 backend records and a non-empty free-text query, the
game-search output list has exactly 20 records — the exact matches first,
then other matches filling the remainder — while the single-pipe handler
behind the other endpoints serializes all backend records untruncated. -/
theorem c8_result_cap_only_games (sp : Params) (rs : List Json) (input : String)
    (file : String) (rp2 sp2 : Params) (key : String)
    (cacheOf : String → CacheOracle) (apiOf : String → ApiResponse)
    (records : List Json) (s : Nat)
    (hin : getParam sp "input" = some input) (hne : input ≠ "")
    (h25 : rs.length = 25)
    (hmiss : ∀ u, (cacheOf u).readResult = .miss)
    (hwr : ∀ u, (cacheOf u).writeOk = true)
    (henv : ∀ u, envelopeData (apiOf u).body = some records)
    (hs : ∀ u, (apiOf u).status = s)
    (hok : statusOk s = true) :
    (gamesOutputList sp rs).length = 20
    ∧ gamesOutputList sp rs
        = (rs.filter (isExactMatch (jsSplit input '+'))
            ++ rs.filter (fun r => !(isExactMatch (jsSplit input '+') r))).take 20
    ∧ (searchPipe file rp2 sp2 key cacheOf apiOf).outcome
        = .response (jsonStringify (Json.arr records)) s := by
  refine ⟨?_, ?_, ?_⟩
  · unfold gamesOutputList
    rw [List.length_take, orderedResultsOf_length, h25]
    decide
  · unfold gamesOutputList
    rw [orderedResultsOf_eq_filter sp rs input hin hne]
  · rw [searchPipe_run_of_miss _ _ _ _ _ _ _ _ hmiss henv hs,
      if_pos (by simp [hok]), if_pos (by simp [hwr _])]

/-- C8 witness: 25 identical exact-match records are cut to 20; the
single-pipe handler returns its row set whole. -/
theorem c8_witness :
    (gamesOutputList [("input", "nova")] (List.replicate 25 replayExactB)).length = 20
    ∧ gamesOutputList [("input", "nova")] (List.replicate 25 replayExactB)
        = ((List.replicate 25 replayExactB).filter (isExactMatch (jsSplit "nova" '+'))
            ++ (List.replicate 25 replayExactB).filter
                (fun r => !(isExactMatch (jsSplit "nova" '+') r))).take 20
    ∧ (searchPipe "sc2_player_search.json" [] [] "key" (fun _ => ⟨.miss, true⟩)
        (fun _ => ⟨200, replayEnvelopeBody⟩)).outcome
        = .response (jsonStringify (Json.arr [rawReplayRecord])) 200 :=
  c8_result_cap_only_games [("input", "nova")] (List.replicate 25 replayExactB) "nova"
    "sc2_player_search.json" [] [] "key" (fun _ => ⟨.miss, true⟩)
    (fun _ => ⟨200, replayEnvelopeBody⟩) [rawReplayRecord] 200
    rfl (by decide) rfl (fun _ => rfl) (fun _ => rfl) (fun _ => rfl) (fun _ => rfl) rfl

end SC2
